import Mathlib

/-!
Verification of the e-cart service (`src/app/app.py`).

The application is a thin web layer over three Db2 tables (`products`,
`cart_items`, `orders`).  We embed the database state as a `Store` record
and each request handler as a pure function on it.  Db2 `DECIMAL(10,2)`
money values are modelled as exact integers (a count of cents); the SQL
join/aggregate in `get_cart_total` becomes a fold over the cart list.
Database faults that a handler can observe (a failing query, a failing
commit, a failing connection attempt) are modelled as explicit inputs, so
the error-handling paths of the Python code are ordinary case splits here.
-/

namespace ECart

/-- Db2 errors are surfaced to the Python code as exception strings. -/
abbrev Err := String

/-- A row of the `products` table (`app.py` lines 97-107).  `price` is the
`DECIMAL(10,2)` value in cents. -/
structure Product where
  id : Nat
  name : String
  description : String
  price : Int
  stock : Int
  category : String
deriving Repr, DecidableEq

/-- A row of the `cart_items` table (`app.py` lines 110-117). -/
structure CartItem where
  id : Nat
  productId : Nat
  quantity : Int
deriving Repr, DecidableEq

/-- A row of the `orders` table (`app.py` lines 120-127).  `totalAmount`
is the `DECIMAL(10,2)` value in cents. -/
structure OrderRow where
  id : Nat
  totalAmount : Int
  status : String
deriving Repr, DecidableEq

/-- The whole database: which tables exist plus the rows of each table.
The `next*` counters model the `GENERATED ALWAYS AS IDENTITY` columns. -/
structure Store where
  hasProducts : Bool
  hasCartItems : Bool
  hasOrders : Bool
  products : List Product
  cart : List CartItem
  orders : List OrderRow
  nextProductId : Nat
  nextCartId : Nat
  nextOrderId : Nat
deriving Repr, DecidableEq

/-- A database with no tables and no rows. -/
def freshStore : Store :=
  { hasProducts := false, hasCartItems := false, hasOrders := false
    products := [], cart := [], orders := []
    nextProductId := 1, nextCartId := 1, nextOrderId := 1 }

/-- Flash type carried in the redirect query string (`type=success|error`). -/
inductive Flash where
  | success
  | error
deriving Repr, DecidableEq

/-- Every UI handler answers with `redirect(url_for("index", msg=..., type=...))`:
an HTTP redirect carrying a flash message and a flash type. -/
structure Resp where
  msg : String
  flash : Flash
deriving Repr, DecidableEq

/-- Flask `redirect` answers with HTTP status 302. -/
def Resp.httpStatus (_ : Resp) : Nat := 302

/-- The sum `SELECT COALESCE(SUM(DECIMAL(p.price * c.quantity, 10, 2)), 0)
FROM cart_items c JOIN products p ON c.product_id = p.id` (`app.py` lines
226-230): cart rows whose product id matches no product are dropped by the
inner join, matching rows contribute `price * quantity`; an empty sum is 0. -/
def cartTotal (s : Store) : Int :=
  (s.cart.map (fun c =>
    match s.products.find? (fun p => p.id == c.productId) with
    | some p => p.price * c.quantity
    | none => 0)).sum

/-- `get_cart_total` (`app.py` lines 221-235): runs the total query inside
`get_db`; any exception is caught and `0.0` is returned.  `dbFail` is true
when the underlying query (or connection) raises. -/
def get_cart_total (dbFail : Bool) (s : Store) : Int :=
  if dbFail then 0 else cartTotal s

/-- `ui_checkout` (`app.py` lines 674-693): reads the cart total; if it is 0,
redirects with the error flash "Cart is empty."; otherwise inserts one row
`(total, "completed")` into `orders` and deletes every `cart_items` row,
then redirects with a success flash.  `dbFail` is true when the total query
inside `get_cart_total` raises. -/
def ui_checkout (dbFail : Bool) (s : Store) : Store × Resp :=
  let total := get_cart_total dbFail s
  if total = 0 then
    (s, { msg := "Cart is empty.", flash := Flash.error })
  else
    ({ s with
        orders := s.orders ++ [{ id := s.nextOrderId, totalAmount := total, status := "completed" }]
        nextOrderId := s.nextOrderId + 1
        cart := [] },
     { msg := "Order placed!", flash := Flash.success })

/-- **C1.** Checkout on a cart whose total is strictly positive appends
exactly one new order row, whose amount is the pre-checkout cart total and
whose status is "completed", and afterwards the cart is empty. -/
theorem checkout_positive_total (s : Store) (h : 0 < cartTotal s) :
    (ui_checkout false s).1.orders
        = s.orders ++ [{ id := s.nextOrderId, totalAmount := cartTotal s, status := "completed" }]
      ∧ (ui_checkout false s).1.cart = []
      ∧ (ui_checkout false s).1.products = s.products
      ∧ (ui_checkout false s).2.flash = Flash.success := by
  have hne : cartTotal s ≠ 0 := by omega
  simp [ui_checkout, get_cart_total, hne]

/-- Concrete run of `checkout_positive_total`: one product at 100 cents,
one cart row of quantity 2, total 200. -/
def storeOneItem : Store :=
  { hasProducts := true, hasCartItems := true, hasOrders := true
    products := [{ id := 1, name := "NVMe SSD", description := "", price := 100, stock := 5, category := "Storage" }]
    cart := [{ id := 1, productId := 1, quantity := 2 }]
    orders := [], nextProductId := 2, nextCartId := 2, nextOrderId := 1 }

theorem checkout_positive_total_witness :
    0 < cartTotal storeOneItem
      ∧ ((ui_checkout false storeOneItem).1.orders
            = storeOneItem.orders
                ++ [{ id := storeOneItem.nextOrderId, totalAmount := cartTotal storeOneItem,
                      status := "completed" }]
          ∧ (ui_checkout false storeOneItem).1.cart = []
          ∧ (ui_checkout false storeOneItem).1.products = storeOneItem.products
          ∧ (ui_checkout false storeOneItem).2.flash = Flash.success) :=
  ⟨by decide, checkout_positive_total storeOneItem (by decide)⟩

/-- **C5.** Checkout when the computed cart total is zero leaves the whole
store unchanged, answers with the user-facing error flash "Cart is empty.",
and the response is an HTTP 302 redirect, not a 5xx. -/
theorem checkout_zero_total (s : Store) (h : cartTotal s = 0) :
    (ui_checkout false s).1 = s
      ∧ (ui_checkout false s).2 = { msg := "Cart is empty.", flash := Flash.error }
      ∧ (ui_checkout false s).2.httpStatus = 302
      ∧ (ui_checkout false s).2.httpStatus < 500 := by
  refine ⟨?_, ?_, rfl, by simp [Resp.httpStatus]⟩ <;>
    simp [ui_checkout, get_cart_total, h]

theorem checkout_zero_total_witness :
    cartTotal freshStore = 0
      ∧ ((ui_checkout false freshStore).1 = freshStore
          ∧ (ui_checkout false freshStore).2 = { msg := "Cart is empty.", flash := Flash.error }
          ∧ (ui_checkout false freshStore).2.httpStatus = 302
          ∧ (ui_checkout false freshStore).2.httpStatus < 500) :=
  ⟨by decide, checkout_zero_total freshStore (by decide)⟩

/-- **C10.** `get_cart_total` never raises: when the underlying query fails
it returns 0, exactly as for an empty cart; consequently checkout under a
failing total query reports "Cart is empty." and changes nothing, even when
cart rows exist. -/
theorem cart_total_error_fallback (s : Store) :
    get_cart_total true s = 0
      ∧ (ui_checkout true s).1 = s
      ∧ (ui_checkout true s).2 = { msg := "Cart is empty.", flash := Flash.error } := by
  refine ⟨rfl, ?_, ?_⟩ <;> simp [ui_checkout, get_cart_total]

/-- `max(1, int(qty_str))` with `ValueError → 1` (`app.py` lines 630-634):
the form's quantity field after `int` parsing — `none` when the text does
not parse as an integer. -/
def parse_qty (field : Option Int) : Int :=
  match field with
  | some n => max 1 n
  | none => 1

/-- `ui_add_to_cart` (`app.py` lines 626-658): looks up the first
`cart_items` row with the given product id (`fetchone`); if found, sets its
quantity to the fetched quantity plus the requested one (`UPDATE ... WHERE
id = ?`); otherwise inserts a new row.  Either way it redirects with a
success flash. -/
def ui_add_to_cart (pid : Nat) (field : Option Int) (s : Store) : Store × Resp :=
  match s.cart.find? (fun c => c.productId == pid) with
  | some row =>
      ({ s with
          cart := s.cart.map (fun c =>
            if c.id == row.id then { c with quantity := row.quantity + parse_qty field } else c) },
       { msg := "Item added to cart", flash := Flash.success })
  | none =>
      ({ s with
          cart := s.cart ++ [{ id := s.nextCartId, productId := pid, quantity := parse_qty field }]
          nextCartId := s.nextCartId + 1 },
       { msg := "Item added to cart", flash := Flash.success })

/-- The cart rows holding the given product id. -/
def cartRowsFor (s : Store) (pid : Nat) : List CartItem :=
  s.cart.filter (fun c => c.productId == pid)

lemma find?_append_of_none {α : Type} {p : α → Bool} {l₁ : List α} (l₂ : List α)
    (h : l₁.find? p = none) : (l₁ ++ l₂).find? p = l₂.find? p := by
  induction l₁ with
  | nil => rfl
  | cons a l ih =>
      by_cases hpa : p a
      · rw [List.find?_cons_of_pos _ hpa] at h
        exact absurd h (by simp)
      · rw [List.find?_cons_of_neg _ hpa] at h
        rw [List.cons_append, List.find?_cons_of_neg _ hpa]
        exact ih h

lemma ui_add_to_cart_found (pid : Nat) (field : Option Int) (s : Store) (row : CartItem)
    (h : s.cart.find? (fun c => c.productId == pid) = some row) :
    ui_add_to_cart pid field s
      = ({ s with
            cart := s.cart.map (fun c =>
              if c.id == row.id then { c with quantity := row.quantity + parse_qty field } else c) },
         { msg := "Item added to cart", flash := Flash.success }) := by
  unfold ui_add_to_cart
  rw [h]

lemma ui_add_to_cart_not_found (pid : Nat) (field : Option Int) (s : Store)
    (h : s.cart.find? (fun c => c.productId == pid) = none) :
    ui_add_to_cart pid field s
      = ({ s with
            cart := s.cart ++ [{ id := s.nextCartId, productId := pid, quantity := parse_qty field }]
            nextCartId := s.nextCartId + 1 },
         { msg := "Item added to cart", flash := Flash.success }) := by
  unfold ui_add_to_cart
  rw [h]

lemma filter_map_of_pres {α : Type} {f : α → α} {p : α → Bool}
    (h : ∀ a, p (f a) = p a) (l : List α) :
    (l.map f).filter p = (l.filter p).map f := by
  induction l with
  | nil => rfl
  | cons a l ih =>
      simp only [List.map_cons, List.filter_cons, h a]
      cases p a <;> simp [ih]

/-- **C2.** Starting from a store with no cart row for `pid`, adding `pid`
with quantity `q1` and then with quantity `q2` (both at least 1, so the
`max(1, ·)` clamp is the identity) leaves exactly one cart row for `pid`
after each step, and after the second step its quantity is `q1 + q2`. -/
theorem add_to_cart_merges (pid : Nat) (q1 q2 : Int) (s : Store)
    (h0 : cartRowsFor s pid = []) (h1 : 1 ≤ q1) (h2 : 1 ≤ q2) :
    (cartRowsFor (ui_add_to_cart pid (some q1) s).1 pid).length = 1
      ∧ (cartRowsFor (ui_add_to_cart pid (some q2) (ui_add_to_cart pid (some q1) s).1).1 pid).length = 1
      ∧ (cartRowsFor (ui_add_to_cart pid (some q2) (ui_add_to_cart pid (some q1) s).1).1 pid).map
          (fun c => c.quantity) = [q1 + q2] := by
  have hfilter : s.cart.filter (fun c => c.productId == pid) = [] := h0
  have hfind : s.cart.find? (fun c => c.productId == pid) = none := by
    rw [List.find?_eq_none]
    intro x hx
    have hall := List.filter_eq_nil_iff.mp hfilter x hx
    simpa using hall
  have hq1 : parse_qty (some q1) = q1 := by
    simp only [parse_qty]
    exact max_eq_right h1
  have hq2 : parse_qty (some q2) = q2 := by
    simp only [parse_qty]
    exact max_eq_right h2
  have hc1 : (ui_add_to_cart pid (some q1) s).1.cart
      = s.cart ++ [{ id := s.nextCartId, productId := pid, quantity := q1 }] := by
    rw [ui_add_to_cart_not_found pid (some q1) s hfind, hq1]
  have hrows1 : cartRowsFor (ui_add_to_cart pid (some q1) s).1 pid
      = [{ id := s.nextCartId, productId := pid, quantity := q1 }] := by
    simp only [cartRowsFor, hc1, List.filter_append, hfilter]
    simp
  have hfind2 : ((ui_add_to_cart pid (some q1) s).1).cart.find? (fun c => c.productId == pid)
      = some { id := s.nextCartId, productId := pid, quantity := q1 } := by
    rw [hc1, find?_append_of_none _ hfind]
    exact List.find?_cons_of_pos _ (by simp)
  have hc2 : (ui_add_to_cart pid (some q2) (ui_add_to_cart pid (some q1) s).1).1.cart
      = ((s.cart ++ [({ id := s.nextCartId, productId := pid, quantity := q1 } : CartItem)]).map
          (fun c : CartItem =>
            if c.id == s.nextCartId then ({ c with quantity := q1 + q2 } : CartItem) else c)) := by
    rw [ui_add_to_cart_found pid (some q2) _ _ hfind2, hq2, hc1]
  have hpres : ∀ c : CartItem,
      ((if c.id == s.nextCartId then ({ c with quantity := q1 + q2 } : CartItem) else c).productId
          == pid)
        = (c.productId == pid) := by
    intro c
    by_cases hid : (c.id == s.nextCartId) = true <;> simp [hid]
  have hrows2 : cartRowsFor (ui_add_to_cart pid (some q2) (ui_add_to_cart pid (some q1) s).1).1 pid
      = [{ id := s.nextCartId, productId := pid, quantity := q1 + q2 }] := by
    simp only [cartRowsFor, hc2]
    rw [filter_map_of_pres hpres, List.filter_append, hfilter]
    simp
  exact ⟨by rw [hrows1]; rfl, by rw [hrows2]; rfl, by rw [hrows2]; rfl⟩

theorem add_to_cart_merges_witness :
    cartRowsFor freshStore 1 = [] ∧ (1 : Int) ≤ 2 ∧ (1 : Int) ≤ 3
      ∧ ((cartRowsFor (ui_add_to_cart 1 (some 2) freshStore).1 1).length = 1
          ∧ (cartRowsFor (ui_add_to_cart 1 (some 3) (ui_add_to_cart 1 (some 2) freshStore).1).1 1).length
              = 1
          ∧ (cartRowsFor (ui_add_to_cart 1 (some 3) (ui_add_to_cart 1 (some 2) freshStore).1).1 1).map
              (fun c => c.quantity) = [2 + 3]) :=
  ⟨rfl, by decide, by decide,
    add_to_cart_merges 1 2 3 freshStore rfl (by decide) (by decide)⟩

/-- **C9.** The quantity field of an add-to-cart request falls back to the
default 1 when it does not parse as an integer, any parsed value below 1 is
raised to 1, the request is never rejected (the redirect carries a success
flash), and consequently add-to-cart preserves the invariant that every
cart row has quantity at least 1. -/
theorem add_to_cart_quantity_ge_one (pid : Nat) (field : Option Int) (s : Store)
    (hinv : ∀ c ∈ s.cart, 1 ≤ c.quantity) :
    parse_qty none = 1
      ∧ (∀ n : Int, n < 1 → parse_qty (some n) = 1)
      ∧ (∀ g : Option Int, 1 ≤ parse_qty g)
      ∧ (ui_add_to_cart pid field s).2.flash = Flash.success
      ∧ (∀ c ∈ (ui_add_to_cart pid field s).1.cart, 1 ≤ c.quantity) := by
  have hge : ∀ g : Option Int, 1 ≤ parse_qty g := by
    intro g
    cases g with
    | none => exact le_refl 1
    | some n => exact le_max_left 1 n
  refine ⟨rfl, ?_, hge, ?_, ?_⟩
  · intro n hn
    simp only [parse_qty]
    exact max_eq_left (le_of_lt hn)
  · rcases hf : s.cart.find? (fun c => c.productId == pid) with _ | row
    · rw [ui_add_to_cart_not_found pid field s hf]
    · rw [ui_add_to_cart_found pid field s row hf]
  · rcases hf : s.cart.find? (fun c => c.productId == pid) with _ | row
    · rw [ui_add_to_cart_not_found pid field s hf]
      intro c hc
      rcases List.mem_append.mp hc with hmem | hmem
      · exact hinv c hmem
      · have hceq : c = { id := s.nextCartId, productId := pid, quantity := parse_qty field } :=
          List.mem_singleton.mp hmem
        rw [hceq]
        exact hge field
    · rw [ui_add_to_cart_found pid field s row hf]
      intro c hc
      rcases List.mem_map.mp hc with ⟨c0, hc0, hceq⟩
      have hrowmem : row ∈ s.cart := List.mem_of_find?_eq_some hf
      have hrowq : 1 ≤ row.quantity := hinv row hrowmem
      have hfq : 1 ≤ parse_qty field := hge field
      by_cases hid : (c0.id == row.id) = true
      · rw [if_pos hid] at hceq
        rw [← hceq]
        show 1 ≤ row.quantity + parse_qty field
        omega
      · rw [if_neg hid] at hceq
        rw [← hceq]
        exact hinv c0 hc0

theorem add_to_cart_quantity_ge_one_witness :
    (∀ c ∈ storeOneItem.cart, 1 ≤ c.quantity)
      ∧ (parse_qty none = 1
          ∧ (∀ n : Int, n < 1 → parse_qty (some n) = 1)
          ∧ (∀ g : Option Int, 1 ≤ parse_qty g)
          ∧ (ui_add_to_cart 1 none storeOneItem).2.flash = Flash.success
          ∧ (∀ c ∈ (ui_add_to_cart 1 none storeOneItem).1.cart, 1 ≤ c.quantity)) :=
  ⟨by decide, add_to_cart_quantity_ge_one 1 none storeOneItem (by decide)⟩

/-- The calls `get_db` makes on the acquired connection, in order. -/
inductive Ev where
  | commit
  | rollback
  | close
deriving Repr, DecidableEq

/-- How the acquired connection reacts to `commit`, `rollback` and `close`:
`none` means the call succeeds, `some e` means it raises `e`. -/
structure ConnBehavior where
  commitErr : Option Err
  rollbackErr : Option Err
  closeErr : Option Err
deriving Repr, DecidableEq

/-- The `get_db` context manager (`app.py` lines 61-72), modelled as the
Python control flow around an already-acquired connection.  `body` is the
outcome of the unit of work run at the `yield`.  The function returns what
`with get_db()` surfaces to the caller together with the ordered list of
calls made on the connection:

* body ok → `commit`; if `commit` raises, the `except` clause runs
  `rollback` and re-raises (a raising `rollback` replaces the exception);
* body raises → `rollback` and re-raise (a raising `rollback` replaces the
  exception);
* the `finally` clause always runs `close`; if `close` raises, its
  exception replaces the outcome. -/
def get_db {α : Type} (cb : ConnBehavior) (body : Except Err α) : Except Err α × List Ev :=
  let inner : Except Err α × List Ev :=
    match body with
    | .ok a =>
        match cb.commitErr with
        | none => (.ok a, [Ev.commit])
        | some e =>
            match cb.rollbackErr with
            | none => (.error e, [Ev.commit, Ev.rollback])
            | some e2 => (.error e2, [Ev.commit, Ev.rollback])
    | .error e =>
        match cb.rollbackErr with
        | none => (.error e, [Ev.rollback])
        | some e2 => (.error e2, [Ev.rollback])
  match cb.closeErr with
  | none => (inner.1, inner.2 ++ [Ev.close])
  | some e3 => (.error e3, inner.2 ++ [Ev.close])

/-- **C3.** The unit-of-work wrapper: on normal completion of the body the
pending changes are committed and the body's value is returned; when the
body raises, rollback is invoked and the exception propagates; and in every
case — success, body failure, and even when commit or rollback themselves
raise — the very last call on the connection is `close`, so the connection
is closed before control returns to the caller. -/
theorem get_db_contract {α : Type} (cb : ConnBehavior) (body : Except Err α) :
    (∀ a : α, body = .ok a → cb.commitErr = none →
        Ev.commit ∈ (get_db cb body).2
          ∧ (cb.closeErr = none → get_db cb body = (.ok a, [Ev.commit, Ev.close])))
      ∧ (∀ e : Err, body = .error e →
          Ev.rollback ∈ (get_db cb body).2
            ∧ (cb.rollbackErr = none → cb.closeErr = none →
                get_db cb body = (.error e, [Ev.rollback, Ev.close])))
      ∧ (get_db cb body).2.getLast? = some Ev.close := by
  refine ⟨?_, ?_, ?_⟩
  · intro a hb hcommit
    subst hb
    constructor
    · rcases hcl : cb.closeErr with _ | e3 <;> simp [get_db, hcommit, hcl]
    · intro hcl
      simp [get_db, hcommit, hcl]
  · intro e hb
    subst hb
    constructor
    · rcases hrb : cb.rollbackErr with _ | e2 <;>
        rcases hcl : cb.closeErr with _ | e3 <;>
          simp [get_db, hrb, hcl]
    · intro hrb hcl
      simp [get_db, hrb, hcl]
  · rcases hcl : cb.closeErr with _ | e3 <;>
      simp [get_db, hcl, List.getLast?_concat]

theorem get_db_contract_witness :
    (Ev.commit ∈ (get_db ⟨none, none, none⟩ (Except.ok (0 : Nat))).2
        ∧ get_db ⟨none, none, none⟩ (Except.ok (0 : Nat))
            = (.ok 0, [Ev.commit, Ev.close]))
      ∧ (get_db ⟨none, none, none⟩ (Except.ok (0 : Nat))).2.getLast? = some Ev.close :=
  have h := get_db_contract (α := Nat) ⟨none, none, none⟩ (Except.ok 0)
  ⟨⟨(h.1 0 rfl rfl).1, (h.1 0 rfl rfl).2 rfl⟩, h.2.2⟩

/-- The environment of connection attempts: the i-th call to
`ibm_db_dbi.connect(DB2_CONN_STR, "", "")` yields a connection handle
(numbered, so distinct attempts are distinguishable) or raises an error. -/
abbrev ConnEnv := Nat → Except Err Nat

/-- Observable outcome of `_connect_with_retry`: the value returned or
raised, the number of connection attempts made, the number of
`time.sleep(delay)` calls, and the total seconds slept. -/
structure RetryTrace where
  result : Except Err Nat
  attempts : Nat
  sleeps : Nat
  waited : Nat
deriving Repr

/-- The loop of `_connect_with_retry` (`app.py` lines 49-57) with `i` the
current attempt index and the fuel the number of loop iterations left
(`retries - i`): try to connect and return on success; on failure remember
the error and, unless this was the last iteration, sleep `delay` seconds;
when the loop ends, raise the remembered error. -/
def connectLoop (env : ConnEnv) (delay : Nat) : Nat → Nat → Err → RetryTrace
  | _, 0, last => { result := .error last, attempts := 0, sleeps := 0, waited := 0 }
  | i, Nat.succ rest, _ =>
      match env i, rest with
      | .ok c, _ => { result := .ok c, attempts := 1, sleeps := 0, waited := 0 }
      | .error e, 0 => { result := .error e, attempts := 1, sleeps := 0, waited := 0 }
      | .error e, Nat.succ r =>
          { result := (connectLoop env delay (i + 1) (Nat.succ r) e).result
            attempts := (connectLoop env delay (i + 1) (Nat.succ r) e).attempts + 1
            sleeps := (connectLoop env delay (i + 1) (Nat.succ r) e).sleeps + 1
            waited := (connectLoop env delay (i + 1) (Nat.succ r) e).waited + delay }

/-- `_connect_with_retry(retries, delay)` (`app.py` lines 46-58):
`last_exc` starts as the placeholder `Exception("Could not connect to Db2")`
and the loop runs `retries` iterations from attempt index 0. -/
def connect_with_retry (retries delay : Nat) (env : ConnEnv) : RetryTrace :=
  connectLoop env delay 0 retries "Could not connect to Db2"

lemma connectLoop_zero (env : ConnEnv) (delay i : Nat) (last : Err) :
    connectLoop env delay i 0 last
      = { result := .error last, attempts := 0, sleeps := 0, waited := 0 } := rfl

lemma connectLoop_ok {env : ConnEnv} {i : Nat} {c : Nat} (delay rest : Nat) (last : Err)
    (henv : env i = .ok c) :
    connectLoop env delay i (Nat.succ rest) last
      = { result := .ok c, attempts := 1, sleeps := 0, waited := 0 } := by
  unfold connectLoop
  rw [henv]

lemma connectLoop_err_last {env : ConnEnv} {i : Nat} {e : Err} (delay : Nat) (last : Err)
    (henv : env i = .error e) :
    connectLoop env delay i (Nat.succ 0) last
      = { result := .error e, attempts := 1, sleeps := 0, waited := 0 } := by
  unfold connectLoop
  rw [henv]

lemma connectLoop_err_step {env : ConnEnv} {i : Nat} {e : Err} (delay r : Nat) (last : Err)
    (henv : env i = .error e) :
    connectLoop env delay i (Nat.succ (Nat.succ r)) last
      = { result := (connectLoop env delay (i + 1) (Nat.succ r) e).result
          attempts := (connectLoop env delay (i + 1) (Nat.succ r) e).attempts + 1
          sleeps := (connectLoop env delay (i + 1) (Nat.succ r) e).sleeps + 1
          waited := (connectLoop env delay (i + 1) (Nat.succ r) e).waited + delay } := by
  conv_lhs => unfold connectLoop
  rw [henv]

lemma connectLoop_spec (env : ConnEnv) (delay : Nat) :
    ∀ (fuel i : Nat) (last : Err),
      ((connectLoop env delay i fuel last).attempts ≤ fuel)
        ∧ (∀ c, (connectLoop env delay i fuel last).result = .ok c →
            ∃ j, j < fuel ∧ env (i + j) = .ok c
              ∧ (∀ k, k < j → ∃ e, env (i + k) = .error e)
              ∧ (connectLoop env delay i fuel last).attempts = j + 1
              ∧ (connectLoop env delay i fuel last).sleeps = j
              ∧ (connectLoop env delay i fuel last).waited = j * delay)
        ∧ ((∀ j, j < fuel → ∃ e, env (i + j) = .error e) → 1 ≤ fuel →
            (∃ e, env (i + (fuel - 1)) = .error e
              ∧ (connectLoop env delay i fuel last).result = .error e)
              ∧ (connectLoop env delay i fuel last).attempts = fuel
              ∧ (connectLoop env delay i fuel last).sleeps = fuel - 1
              ∧ (connectLoop env delay i fuel last).waited = (fuel - 1) * delay) := by
  intro fuel
  induction fuel with
  | zero =>
      intro i last
      refine ⟨Nat.le_refl 0, ?_, ?_⟩
      · intro c hc
        rw [connectLoop_zero] at hc
        exact absurd hc (by simp)
      · intro _ h1
        omega
  | succ rest ih =>
      intro i last
      cases henv : env i with
      | ok c =>
          rw [connectLoop_ok delay rest last henv]
          refine ⟨by simp, ?_, ?_⟩
          · intro c' hc'
            have hcc : c = c' := by simpa using hc'
            subst hcc
            exact ⟨0, by omega, by simpa using henv, by omega, rfl, rfl, by simp⟩
          · intro hall _
            obtain ⟨e, he⟩ := hall 0 (by omega)
            rw [Nat.add_zero, henv] at he
            exact absurd he (by simp)
      | error e =>
          cases rest with
          | zero =>
              rw [connectLoop_err_last delay last henv]
              refine ⟨by simp, ?_, ?_⟩
              · intro c hc
                exact absurd hc (by simp)
              · intro hall _
                exact ⟨⟨e, by simpa using henv, rfl⟩, rfl, rfl, by simp⟩
          | succ r =>
              obtain ⟨iha, ihs, ihf⟩ := ih (i + 1) e
              rw [connectLoop_err_step delay r last henv]
              refine ⟨?_, ?_, ?_⟩
              · show (connectLoop env delay (i + 1) (r + 1) e).attempts + 1 ≤ r + 2
                omega
              · intro c hc
                obtain ⟨j', hj', henvj, hpre, hatt, hsl, hwt⟩ := ihs c hc
                refine ⟨j' + 1, by omega, ?_, ?_, ?_, ?_, ?_⟩
                · rw [show i + (j' + 1) = (i + 1) + j' by omega]
                  exact henvj
                · intro k hk
                  cases k with
                  | zero => exact ⟨e, by rw [Nat.add_zero]; exact henv⟩
                  | succ k' =>
                      obtain ⟨e', he'⟩ := hpre k' (by omega)
                      exact ⟨e', by rw [show i + (k' + 1) = (i + 1) + k' by omega]; exact he'⟩
                · show (connectLoop env delay (i + 1) (r + 1) e).attempts + 1 = (j' + 1) + 1
                  omega
                · show (connectLoop env delay (i + 1) (r + 1) e).sleeps + 1 = j' + 1
                  omega
                · show (connectLoop env delay (i + 1) (r + 1) e).waited + delay
                      = (j' + 1) * delay
                  rw [hwt, add_one_mul]
              · intro hall _
                have hall' : ∀ j, j < Nat.succ r → ∃ e', env ((i + 1) + j) = .error e' := by
                  intro j hj
                  obtain ⟨e', he'⟩ := hall (j + 1) (by omega)
                  exact ⟨e', by rw [show (i + 1) + j = i + (j + 1) by omega]; exact he'⟩
                obtain ⟨⟨e', helast, hres⟩, hatt, hsl, hwt⟩ := ihf hall' (by omega)
                refine ⟨⟨e', ?_, hres⟩, ?_, ?_, ?_⟩
                · rw [show i + (Nat.succ (Nat.succ r) - 1) = (i + 1) + (Nat.succ r - 1) by omega]
                  exact helast
                · show (connectLoop env delay (i + 1) (r + 1) e).attempts + 1 = r + 2
                  omega
                · show (connectLoop env delay (i + 1) (r + 1) e).sleeps + 1 = r + 2 - 1
                  omega
                · show (connectLoop env delay (i + 1) (r + 1) e).waited + delay
                      = (r + 2 - 1) * delay
                  rw [hwt, show r + 1 - 1 = r from rfl, show r + 2 - 1 = r + 1 from rfl,
                    add_one_mul]

/-- **C4 (amended: retries ≥ 1).** `_connect_with_retry` makes at most
`retries` connection attempts; when some attempt succeeds it returns the
connection of the first successful attempt, having slept `delay` seconds
once after each preceding failed attempt (`j` failures → `j` sleeps,
`j * delay` seconds) and never after the last attempt; and when every
attempt fails it makes exactly `retries` attempts, sleeps `retries - 1`
times (not after the last attempt) and raises the error of the last
attempt.  (With `retries = 0` the code instead raises the hard-coded
placeholder error — see the counterexample.) -/
theorem connect_with_retry_spec (retries delay : Nat) (env : ConnEnv) (hr : 1 ≤ retries) :
    (connect_with_retry retries delay env).attempts ≤ retries
      ∧ (∀ c, (connect_with_retry retries delay env).result = .ok c →
          ∃ j, j < retries ∧ env j = .ok c
            ∧ (∀ k, k < j → ∃ e, env k = .error e)
            ∧ (connect_with_retry retries delay env).attempts = j + 1
            ∧ (connect_with_retry retries delay env).sleeps = j
            ∧ (connect_with_retry retries delay env).waited = j * delay)
      ∧ ((∀ j, j < retries → ∃ e, env j = .error e) →
          (∃ e, env (retries - 1) = .error e
              ∧ (connect_with_retry retries delay env).result = .error e)
            ∧ (connect_with_retry retries delay env).attempts = retries
            ∧ (connect_with_retry retries delay env).sleeps = retries - 1
            ∧ (connect_with_retry retries delay env).waited = (retries - 1) * delay) := by
  obtain ⟨ha, hs, hf⟩ := connectLoop_spec env delay retries 0 "Could not connect to Db2"
  refine ⟨ha, ?_, ?_⟩
  · intro c hc
    obtain ⟨j, hj, henvj, hpre, h1, h2, h3⟩ := hs c hc
    refine ⟨j, hj, by simpa using henvj, ?_, h1, h2, h3⟩
    intro k hk
    obtain ⟨e, he⟩ := hpre k hk
    exact ⟨e, by simpa using he⟩
  · intro hall
    have hall0 : ∀ j, j < retries → ∃ e, env (0 + j) = .error e := by
      intro j hj
      obtain ⟨e, he⟩ := hall j hj
      exact ⟨e, by simpa using he⟩
    obtain ⟨⟨e, he, hres⟩, h1, h2, h3⟩ := hf hall0 hr
    exact ⟨⟨e, by simpa using he, hres⟩, h1, h2, h3⟩

/-- Attempts 0 and 1 fail, attempt 2 yields connection handle 7. -/
def envFlaky : ConnEnv := fun i => if i < 2 then .error ("connreset" ++ toString i) else .ok 7

theorem connect_with_retry_spec_witness :
    1 ≤ 5 ∧ (connect_with_retry 5 2 envFlaky).attempts ≤ 5 :=
  ⟨by decide, (connect_with_retry_spec 5 2 envFlaky (by decide)).1⟩

/-- Every connection attempt in this environment fails with "boom". -/
def envBoom : ConnEnv := fun _ => .error "boom"

/-- **C4 counterexample (retries = 0).**  The claim quantifies over all
`retries ≥ 0` and asserts that, when every attempt fails, the raised error
is the one from the last underlying attempt.  With `retries = 0` the loop
body never runs: no attempt is made, yet the call raises — and what it
raises is the hard-coded placeholder `Exception("Could not connect to
Db2")` from `app.py` line 48, not an error produced by any underlying
connection attempt (every attempt of this environment would yield "boom"). -/
theorem connect_with_retry_zero_counterexample :
    (connect_with_retry 0 5 envBoom).attempts = 0
      ∧ (connect_with_retry 0 5 envBoom).sleeps = 0
      ∧ (connect_with_retry 0 5 envBoom).result = .error "Could not connect to Db2"
      ∧ envBoom 0 = .error "boom"
      ∧ "Could not connect to Db2" ≠ "boom" :=
  ⟨rfl, rfl, rfl, rfl, by decide⟩

/-- `"pat" in str(exc)`: substring containment on the error text. -/
def strContains (s pat : String) : Bool := decide (pat.toList <:+: s.toList)

/-- The condition of `_create_table_if_not_exists` (`app.py` line 85):
the error text mentions the Db2 "object already exists" code. -/
def code601 (e : Err) : Bool := strContains e "SQL0601N" || strContains e "-601"

/-- `_create_table_if_not_exists` (`app.py` lines 80-88) applied to the
outcome of `cur.execute(create_sql)`: a SQL0601N / -601 error is swallowed,
any other error re-raised. -/
def create_table_if_not_exists (res : Except Err Unit) : Except Err Unit :=
  match res with
  | .ok _ => .ok ()
  | .error exc => if code601 exc then .ok () else .error exc

/-- The error Db2 raises from `CREATE TABLE` when the table already exists. -/
def sql0601Msg : Err :=
  "SQL0601N  The name of the object to be created is identical to the existing name."

/-- Outcome of `cur.execute(create_sql)` as a function of whether the table
already exists. -/
def tableCreateRes (tblExists : Bool) : Except Err Unit :=
  if tblExists then .error sql0601Msg else .ok ()

/-- The eight seed rows of `init_db` (`app.py` lines 133-142):
name, description, price in cents, stock, category. -/
def seed_products : List (String × String × Int × Int × String) :=
  [ ("IBM Power10 Server S1022",
     "Dual-socket POWER10 server — ppc64le architecture, ideal for AI/ML workloads",
     4999999, 10, "Servers"),
    ("IBM Fusion HCI Node",
     "Hyper-converged infrastructure node for OpenShift — NVMe + 25GbE",
     8999999, 5, "HCI"),
    ("Red Hat OpenShift Subscription",
     "Enterprise Kubernetes platform subscription (1 year, unlimited nodes)",
     129999, 100, "Software"),
    ("IBM Db2 Enterprise License",
     "Enterprise database license for IBM Power — includes HA and partitioning",
     499999, 50, "Software"),
    ("NVMe SSD 3.84TB U.2",
     "High-speed NVMe storage for HCI nodes — 7GB/s read",
     129999, 30, "Storage"),
    ("25GbE Dual-Port NIC",
     "High-performance 25GbE network adapter for OCP nodes",
     39999, 75, "Networking"),
    ("IBM Storage Scale License",
     "Parallel file system license for IBM Fusion HCI",
     249999, 20, "Software"),
    ("DDR5 128GB RDIMM",
     "Server memory module for IBM Power10 — DDR5 4800MHz",
     89999, 40, "Memory") ]

/-- The seeding loop of `init_db`: one `INSERT INTO products` per seed row,
each consuming the next generated identity value. -/
def insertSeeds (s : Store) : Store :=
  seed_products.foldl
    (fun st p =>
      { st with
          products := st.products
            ++ [{ id := st.nextProductId, name := p.1, description := p.2.1,
                  price := p.2.2.1, stock := p.2.2.2.1, category := p.2.2.2.2 }]
          nextProductId := st.nextProductId + 1 })
    s

/-- `init_db` (`app.py` lines 91-151) with the three `cur.execute(create_sql)`
outcomes made explicit: run the three guarded create-table operations in
order (aborting on an unswallowed error), then count the `products` rows and
seed the fixed list exactly when the count is 0. -/
def init_db_core (r1 r2 r3 : Except Err Unit) (s : Store) : Except Err Store :=
  match create_table_if_not_exists r1 with
  | .error e => .error e
  | .ok _ =>
      match create_table_if_not_exists r2 with
      | .error e => .error e
      | .ok _ =>
          match create_table_if_not_exists r3 with
          | .error e => .error e
          | .ok _ =>
              if s.products.length = 0 then
                .ok (insertSeeds
                  { s with hasProducts := true, hasCartItems := true, hasOrders := true })
              else
                .ok { s with hasProducts := true, hasCartItems := true, hasOrders := true }

/-- `init_db` against a store: each `CREATE TABLE` succeeds when the table
is absent and raises SQL0601N when it already exists. -/
def init_db (s : Store) : Except Err Store :=
  init_db_core (tableCreateRes s.hasProducts) (tableCreateRes s.hasCartItems)
    (tableCreateRes s.hasOrders) s

/-- The store produced by the first `init_db` on an empty database. -/
def seededStore : Store :=
  insertSeeds { freshStore with hasProducts := true, hasCartItems := true, hasOrders := true }

/-- **C6.** Re-running `init_db` against an already-initialized store (all
three tables exist, products nonempty) raises no error and changes nothing;
and the first run on an empty store yields exactly the 8 seed rows, after
which any further run returns the same store — so the seed count stays 8. -/
theorem init_db_idempotent (s : Store)
    (h1 : s.hasProducts = true) (h2 : s.hasCartItems = true) (h3 : s.hasOrders = true)
    (h4 : s.products ≠ []) :
    init_db s = .ok s
      ∧ init_db freshStore = .ok seededStore
      ∧ seededStore.products.length = 8
      ∧ init_db seededStore = .ok seededStore := by
  refine ⟨?_, rfl, rfl, rfl⟩
  obtain ⟨hp, hc, ho, prods, cart, ords, np, ncid, noid⟩ := s
  simp only at h1 h2 h3 h4
  subst h1
  subst h2
  subst h3
  have hred : init_db ⟨true, true, true, prods, cart, ords, np, ncid, noid⟩
      = if prods.length = 0 then
          .ok (insertSeeds ⟨true, true, true, prods, cart, ords, np, ncid, noid⟩)
        else
          .ok ⟨true, true, true, prods, cart, ords, np, ncid, noid⟩ := rfl
  rw [hred, if_neg (fun h => h4 (List.length_eq_zero.mp h))]

theorem init_db_idempotent_witness :
    (seededStore.hasProducts = true ∧ seededStore.hasCartItems = true
        ∧ seededStore.hasOrders = true ∧ seededStore.products ≠ [])
      ∧ (init_db seededStore = .ok seededStore
          ∧ init_db freshStore = .ok seededStore
          ∧ seededStore.products.length = 8
          ∧ init_db seededStore = .ok seededStore) :=
  ⟨⟨rfl, rfl, rfl, by decide⟩,
    init_db_idempotent seededStore rfl rfl rfl (by decide)⟩

lemma init_db_core_congr {r1 r2 r3 r1' r2' r3' : Except Err Unit} (s : Store)
    (h1 : create_table_if_not_exists r1 = create_table_if_not_exists r1')
    (h2 : create_table_if_not_exists r2 = create_table_if_not_exists r2')
    (h3 : create_table_if_not_exists r3 = create_table_if_not_exists r3') :
    init_db_core r1 r2 r3 s = init_db_core r1' r2' r3' s := by
  unfold init_db_core
  rw [h1, h2, h3]

/-- **C7.** For each of the three create-table operations of `init_db`: an
error whose text carries the Db2 "object already exists" code (SQL0601N /
-601) is swallowed — initialization proceeds exactly as if the create had
succeeded — while an error without that code propagates to the caller. -/
theorem create_table_error_swallow (e : Err) (s : Store) (r1 r2 r3 : Except Err Unit)
    (hok1 : create_table_if_not_exists r1 = .ok ())
    (hok2 : create_table_if_not_exists r2 = .ok ()) :
    (code601 e = true →
        init_db_core (.error e) r2 r3 s = init_db_core (.ok ()) r2 r3 s
          ∧ init_db_core r1 (.error e) r3 s = init_db_core r1 (.ok ()) r3 s
          ∧ init_db_core r1 r2 (.error e) s = init_db_core r1 r2 (.ok ()) s)
      ∧ (code601 e = false →
          init_db_core (.error e) r2 r3 s = .error e
            ∧ init_db_core r1 (.error e) r3 s = .error e
            ∧ init_db_core r1 r2 (.error e) s = .error e) := by
  constructor
  · intro h
    have hswallow : create_table_if_not_exists (.error e) = create_table_if_not_exists (.ok ()) := by
      simp [create_table_if_not_exists, h]
    exact ⟨init_db_core_congr s hswallow rfl rfl, init_db_core_congr s rfl hswallow rfl,
      init_db_core_congr s rfl rfl hswallow⟩
  · intro h
    have hprop : create_table_if_not_exists (.error e) = .error e := by
      simp [create_table_if_not_exists, h]
    refine ⟨?_, ?_, ?_⟩
    · unfold init_db_core
      rw [hprop]
    · unfold init_db_core
      rw [hok1, hprop]
    · unfold init_db_core
      rw [hok1, hok2, hprop]

theorem create_table_error_swallow_witness :
    (create_table_if_not_exists (.ok ()) = .ok ()
        ∧ code601 sql0601Msg = true
        ∧ code601 "SQL0204N  The object name is undefined." = false)
      ∧ init_db_core (.error sql0601Msg) (.ok ()) (.ok ()) freshStore
          = init_db_core (.ok ()) (.ok ()) (.ok ()) freshStore
      ∧ init_db_core (.error "SQL0204N  The object name is undefined.") (.ok ()) (.ok ()) freshStore
          = .error "SQL0204N  The object name is undefined." :=
  ⟨⟨rfl, rfl, rfl⟩,
    ((create_table_error_swallow sql0601Msg freshStore (.ok ()) (.ok ()) (.ok ()) rfl rfl).1
      rfl).1,
    ((create_table_error_swallow "SQL0204N  The object name is undefined." freshStore
      (.ok ()) (.ok ()) (.ok ()) rfl rfl).2 rfl).1⟩

/-- The JSON body and HTTP status of a `/ready` response. -/
structure ReadyResp where
  httpStatus : Nat
  statusField : String
  dbField : String
deriving Repr, DecidableEq

/-- A `/ready` call together with how many connection attempts it made and
how many times it slept. -/
structure ReadyTrace where
  resp : ReadyResp
  attempts : Nat
  sleeps : Nat
deriving Repr, DecidableEq

/-- The `ready` handler (`app.py` lines 705-716): one direct
`ibm_db_dbi.connect` call — not `_connect_with_retry` — followed by the
probe query `SELECT 1 FROM SYSIBM.SYSDUMMY1`; any exception yields 503 with
the error string, success yields 200 `ready`/`connected`.  `env` is the
attempt environment (only attempt 0 is ever consulted) and `query c` the
outcome of the probe on connection `c`. -/
def ready (env : ConnEnv) (query : Nat → Except Err Unit) : ReadyTrace :=
  match env 0 with
  | .error e => { resp := { httpStatus := 503, statusField := "not ready", dbField := e }
                  attempts := 1, sleeps := 0 }
  | .ok c =>
      match query c with
      | .error e => { resp := { httpStatus := 503, statusField := "not ready", dbField := e }
                      attempts := 1, sleeps := 0 }
      | .ok _ => { resp := { httpStatus := 200, statusField := "ready", dbField := "connected" }
                   attempts := 1, sleeps := 0 }

/-- **C8.** `/ready` makes exactly one connection attempt with no sleep;
its outcome depends only on the first attempt (no retry: environments
agreeing on attempt 0 get identical responses); when the store is reachable
(connection and probe query succeed) it answers 200 with status "ready" /
db "connected", and when the connection fails it answers 503 with status
"not ready" carrying the error string. -/
theorem ready_spec (env env' : ConnEnv) (query : Nat → Except Err Unit) :
    (ready env query).attempts = 1
      ∧ (ready env query).sleeps = 0
      ∧ (∀ c, env 0 = .ok c → query c = .ok () →
          (ready env query).resp
            = { httpStatus := 200, statusField := "ready", dbField := "connected" })
      ∧ (∀ e, env 0 = .error e →
          (ready env query).resp
            = { httpStatus := 503, statusField := "not ready", dbField := e })
      ∧ (env 0 = env' 0 → ready env query = ready env' query) := by
  refine ⟨?_, ?_, ?_, ?_, ?_⟩
  · rcases h : env 0 with e | c
    · simp [ready, h]
    · rcases hq : query c with e | u <;> simp [ready, h, hq]
  · rcases h : env 0 with e | c
    · simp [ready, h]
    · rcases hq : query c with e | u <;> simp [ready, h, hq]
  · intro c hc hq
    simp [ready, hc, hq]
  · intro e he
    simp [ready, he]
  · intro hagree
    unfold ready
    rw [hagree]

theorem ready_spec_witness :
    ((fun _ : Nat => (Except.ok 1 : Except Err Nat)) 0 = .ok 1
        ∧ (fun _ : Nat => (Except.ok () : Except Err Unit)) 1 = .ok ())
      ∧ (ready (fun _ => .ok 1) (fun _ => .ok ())).resp
          = { httpStatus := 200, statusField := "ready", dbField := "connected" } :=
  ⟨⟨rfl, rfl⟩,
    (ready_spec (fun _ => .ok 1) (fun _ => .ok 1) (fun _ => .ok ())).2.2.1 1 rfl rfl⟩

end ECart
